import Mathlib

/-!
Shallow embedding of the contract taxonomy and payoff engine of
`src/contract.py`, and of the volatility models of
`Lectures/2024_fall_BME/05_FlatVol/model.py`.

Python floats are modelled as rationals (`ℚ`); the `np.Inf` default of the
generic barrier level is modelled with `WithTop ℚ`.  A Python method that can
raise at call time (a fall-through `raise`, `mean` of an empty list, indexing
`[-1]` into an empty list, arithmetic on a value of the wrong runtime shape)
is modelled with `Option ℚ`: `none` covers both an exception escaping the
method and the `None` that `GenericContract.payoff` returns when its dispatch
falls through every branch.  Constructors that validate their arguments are
modelled as functions into `Except PyError _`.
-/

/-- Modelled from the spec: the module `src.enums` is not part of the source
tree given; the spec describes closed sets for contract kind, option
direction, position, barrier direction and barrier activation.  The demo code
in `contract.py` compares enum-typed fields against plain strings
(`self._updown == 'UP'`) and constructs contracts from plain strings, so the
enums are string-valued: a member is equal to its own name string.  Each
string comparison in `contract.py` is therefore embedded as equality with the
corresponding member. -/
inductive PutCallFwd where
  | CALL
  | PUT
  | FWD
deriving DecidableEq, Repr

/-- Modelled from the spec: position (long/short). -/
inductive LongShort where
  | LONG
  | SHORT
deriving DecidableEq, Repr

/-- Modelled from the spec: barrier direction (up/down). -/
inductive UpDown where
  | UP
  | DOWN
deriving DecidableEq, Repr

/-- Modelled from the spec: barrier activation (in/out). -/
inductive InOut where
  | IN
  | OUT
deriving DecidableEq, Repr

/-- Modelled from the spec: contract kind tags, one per concrete variant. -/
inductive ContractType where
  | FORWARD
  | EUROPEANOPTION
  | AMERICANOPTION
  | EUROPEANDIGITALOPTION
  | ASIANOPTION
  | EUROPEANBARRIEROPTION
deriving DecidableEq, Repr

/-- The underlying identifier (`Stock`): a name such as `'Apple'`. -/
abbrev Stock := String

/-- Errors raised by constructors.  `contract.py` only ever raises
`TypeError`; `validationError` represents the `ValidationError` of the spec's
error taxonomy (never raised by this code) so that claims about it can be
stated. -/
inductive PyError where
  | typeError (msg : String)
  | validationError (msg : String)
deriving DecidableEq, Repr

/-- Python `Contract._raise_incorrect_derivative_type`. -/
def raise_incorrect_derivative_type (cls : String) : PyError :=
  .typeError ("Derivative type of " ++ cls ++ " must be CALL or PUT")

/-- Python `Contract._raise_incorrect_barrier_updown_type`. -/
def raise_incorrect_barrier_updown_type (cls : String) : PyError :=
  .typeError ("Updown parameter of " ++ cls ++ " must be UP or DOWN")

/-- Python `Contract._raise_incorrect_barrier_inout_type`. -/
def raise_incorrect_barrier_inout_type (cls : String) : PyError :=
  .typeError ("Inout parameter of " ++ cls ++ " must be IN or OUT")

/-- Python `self.ls = 1 if longshort == LongShort.LONG else -1`. -/
def lsValue (longshort : LongShort) : ℚ :=
  if longshort = LongShort.LONG then 1 else -1

/-- Python `statistics.mean` on a non-empty list of numbers; the empty case (where
Python raises `StatisticsError`) is guarded by `Option` at every use site. -/
def mean (xs : List ℚ) : ℚ := xs.sum / (xs.length : ℚ)

/-- Python `VanillaContract.get_timeline`: `[self._expiry]`. -/
def vanillaTimeline (expiry : ℚ) : List ℚ := [expiry]

/-- Python `PathDependentContract.get_timeline`:
`[((i+1)/self._num_mon)*self._expiry for i in range(self._num_mon)]`. -/
def pathDependentTimeline (num_mon : ℕ) (expiry : ℚ) : List ℚ :=
  (List.range num_mon).map (fun i => (((i : ℚ) + 1) / (num_mon : ℚ)) * expiry)

/-- The runtime shape of the price argument of `GenericContract.payoff`:
either a single terminal price or a full price series. -/
inductive PriceInput where
  | scalar (p : ℚ)
  | series (ps : List ℚ)
deriving DecidableEq, Repr

/-- Python `GenericContract`: the type-erased form.  `barrier` defaults to `np.Inf`
(`⊤`), `updown` and `inout` default to `None`. -/
structure GenericContract where
  contract : ContractType
  und : Stock
  dtype : PutCallFwd
  longshort : LongShort
  strike : ℚ
  expiry : ℚ
  num_mon : ℕ
  barrier : WithTop ℚ
  updown : Option UpDown
  inout : Option InOut
deriving DecidableEq, Repr

/-- Python `GenericContract.__init__`: validates that the derivative type is CALL,
PUT or FWD, that `updown` is UP, DOWN or None and that `inout` is IN, OUT or
None; `num_mon` is left at the base-class default 1. -/
def mkGenericContract (contract : ContractType) (und : Stock) (dtype : PutCallFwd)
    (longshort : LongShort) (strk exp : ℚ) (barrier : WithTop ℚ)
    (updown : Option UpDown) (inout : Option InOut) :
    Except PyError GenericContract :=
  if dtype = PutCallFwd.CALL ∨ dtype = PutCallFwd.PUT ∨ dtype = PutCallFwd.FWD then
    Except.ok ⟨contract, und, dtype, longshort, strk, exp, 1, barrier, updown, inout⟩
  else
    Except.error (raise_incorrect_derivative_type "GenericContract")

/-- Python `GenericContract.ls`. -/
def GenericContract.ls (g : GenericContract) : ℚ := lsValue g.longshort

/-- Python `GenericContract.get_timeline` (inherited from `PathDependentContract`). -/
def GenericContract.get_timeline (g : GenericContract) : List ℚ :=
  pathDependentTimeline g.num_mon g.expiry

/-- Python `GenericContract.is_breached`: for `'UP'` any price with barrier ≤ price,
otherwise any price with price ≤ barrier.  Prices are coerced into
`WithTop ℚ` to compare against the possibly-infinite barrier level. -/
def GenericContract.is_breached (g : GenericContract) (prices_und : List ℚ) : Bool :=
  if g.updown = some UpDown.UP then
    prices_und.any (fun price => decide (g.barrier ≤ (price : WithTop ℚ)))
  else
    prices_und.any (fun price => decide ((price : WithTop ℚ) ≤ g.barrier))

/-- Python `GenericContract.payoff`: dispatch on the kind tag.  `none` is returned
exactly when the Python method either raises (wrong runtime shape of
`prices_und`, empty series where `mean` or `[-1]` is evaluated) or falls
through every branch and implicitly returns `None`. -/
def GenericContract.payoff (g : GenericContract) (prices_und : PriceInput) : Option ℚ :=
  if g.contract = ContractType.FORWARD then
    match prices_und with
    | .scalar s => some (g.ls * (s - g.strike))
    | .series _ => none
  else if g.contract = ContractType.AMERICANOPTION ∨
      g.contract = ContractType.EUROPEANOPTION then
    match prices_und with
    | .scalar s =>
      if g.dtype = PutCallFwd.CALL then some (g.ls * max (s - g.strike) 0)
      else if g.dtype = PutCallFwd.PUT then some (g.ls * max (g.strike - s) 0)
      else none
    | .series _ => none
  else if g.contract = ContractType.EUROPEANDIGITALOPTION then
    match prices_und with
    | .scalar s =>
      if g.dtype = PutCallFwd.CALL then some (g.ls * (if s - g.strike > 0 then 1 else 0))
      else if g.dtype = PutCallFwd.PUT then some (g.ls * (if g.strike - s > 0 then 1 else 0))
      else none
    | .series _ => none
  else if g.contract = ContractType.ASIANOPTION then
    match prices_und with
    | .scalar _ => none
    | .series xs =>
      if g.dtype = PutCallFwd.CALL then
        if xs = [] then none else some (g.ls * max (mean xs - g.strike) 0)
      else if g.dtype = PutCallFwd.PUT then
        if xs = [] then none else some (g.ls * max (g.strike - mean xs) 0)
      else none
  else if g.contract = ContractType.EUROPEANBARRIEROPTION then
    match prices_und with
    | .scalar _ => none
    | .series xs =>
      let mult : ℚ :=
        (if g.inout = some InOut.IN then 1 else 0) *
          (if g.is_breached xs then 1 else 0) +
        (if g.inout = some InOut.OUT then 1 else 0) *
          (1 - (if g.is_breached xs then 1 else 0))
      if g.dtype = PutCallFwd.CALL then
        match xs.getLast? with
        | some l => some (mult * g.ls * max (l - g.strike) 0)
        | none => none
      else if g.dtype = PutCallFwd.PUT then
        match xs.getLast? with
        | some l => some (mult * g.ls * max (g.strike - l) 0)
        | none => none
      else none
  else none

/-- Python `ForwardContract`: derivative type fixed to FWD, tag FORWARD. -/
structure ForwardContract where
  und : Stock
  dtype : PutCallFwd
  longshort : LongShort
  strike : ℚ
  expiry : ℚ
  num_mon : ℕ
  contract : ContractType
deriving DecidableEq, Repr

/-- Python `ForwardContract.__init__`: no validation. -/
def mkForwardContract (und : Stock) (longshort : LongShort) (strk exp : ℚ) :
    ForwardContract :=
  ⟨und, PutCallFwd.FWD, longshort, strk, exp, 1, ContractType.FORWARD⟩

/-- Python `ForwardContract.ls`. -/
def ForwardContract.ls (c : ForwardContract) : ℚ := lsValue c.longshort

/-- Python `ForwardContract.payoff`: `self.ls * (spot - self._strike)`. -/
def ForwardContract.payoff (c : ForwardContract) (spot : ℚ) : ℚ :=
  c.ls * (spot - c.strike)

/-- Python `ForwardContract.get_timeline` (inherited from `VanillaContract`). -/
def ForwardContract.get_timeline (c : ForwardContract) : List ℚ :=
  vanillaTimeline c.expiry

/-- Python `ForwardContract.convert_to_generic`, applied as in `main()`: the
contract's own tag, underlying, type, position, strike and expiry are passed
through; barrier, updown and inout take the generic defaults. -/
def ForwardContract.convert_to_generic (c : ForwardContract) :
    Except PyError GenericContract :=
  mkGenericContract c.contract c.und c.dtype c.longshort c.strike c.expiry ⊤ none none

/-- Python `EuropeanContract`: a vanilla European option. -/
structure EuropeanContract where
  und : Stock
  dtype : PutCallFwd
  longshort : LongShort
  strike : ℚ
  expiry : ℚ
  num_mon : ℕ
  contract : ContractType
deriving DecidableEq, Repr

/-- Python `EuropeanContract.__init__`: raises if the derivative type is not CALL or
PUT; tag EUROPEANOPTION. -/
def mkEuropeanContract (und : Stock) (dtype : PutCallFwd) (longshort : LongShort)
    (strk exp : ℚ) : Except PyError EuropeanContract :=
  if dtype = PutCallFwd.CALL ∨ dtype = PutCallFwd.PUT then
    Except.ok ⟨und, dtype, longshort, strk, exp, 1, ContractType.EUROPEANOPTION⟩
  else
    Except.error (raise_incorrect_derivative_type "EuropeanContract")

/-- Python `EuropeanContract.ls`. -/
def EuropeanContract.ls (c : EuropeanContract) : ℚ := lsValue c.longshort

/-- Python `EuropeanContract.payoff`: call `ls * max(spot - K, 0)`, put
`ls * max(K - spot, 0)`, otherwise the method raises. -/
def EuropeanContract.payoff (c : EuropeanContract) (spot : ℚ) : Option ℚ :=
  if c.dtype = PutCallFwd.CALL then some (c.ls * max (spot - c.strike) 0)
  else if c.dtype = PutCallFwd.PUT then some (c.ls * max (c.strike - spot) 0)
  else none

/-- Python `EuropeanContract.get_timeline`. -/
def EuropeanContract.get_timeline (c : EuropeanContract) : List ℚ :=
  vanillaTimeline c.expiry

/-- Python `EuropeanContract.convert_to_generic`, applied as in `main()`. -/
def EuropeanContract.convert_to_generic (c : EuropeanContract) :
    Except PyError GenericContract :=
  mkGenericContract c.contract c.und c.dtype c.longshort c.strike c.expiry ⊤ none none

/-- Python `AmericanContract`: modelled identically to the European option at the
payoff level; tag AMERICANOPTION. -/
structure AmericanContract where
  und : Stock
  dtype : PutCallFwd
  longshort : LongShort
  strike : ℚ
  expiry : ℚ
  num_mon : ℕ
  contract : ContractType
deriving DecidableEq, Repr

/-- Python `AmericanContract.__init__`. -/
def mkAmericanContract (und : Stock) (dtype : PutCallFwd) (longshort : LongShort)
    (strk exp : ℚ) : Except PyError AmericanContract :=
  if dtype = PutCallFwd.CALL ∨ dtype = PutCallFwd.PUT then
    Except.ok ⟨und, dtype, longshort, strk, exp, 1, ContractType.AMERICANOPTION⟩
  else
    Except.error (raise_incorrect_derivative_type "AmericanContract")

/-- Python `AmericanContract.ls`. -/
def AmericanContract.ls (c : AmericanContract) : ℚ := lsValue c.longshort

/-- Python `AmericanContract.payoff`. -/
def AmericanContract.payoff (c : AmericanContract) (spot : ℚ) : Option ℚ :=
  if c.dtype = PutCallFwd.CALL then some (c.ls * max (spot - c.strike) 0)
  else if c.dtype = PutCallFwd.PUT then some (c.ls * max (c.strike - spot) 0)
  else none

/-- Python `AmericanContract.get_timeline`. -/
def AmericanContract.get_timeline (c : AmericanContract) : List ℚ :=
  vanillaTimeline c.expiry

/-- Python `AmericanContract.convert_to_generic`, applied as in `main()`. -/
def AmericanContract.convert_to_generic (c : AmericanContract) :
    Except PyError GenericContract :=
  mkGenericContract c.contract c.und c.dtype c.longshort c.strike c.expiry ⊤ none none

/-- Python `EuropeanDigitalContract`: cash-or-nothing digital option. -/
structure EuropeanDigitalContract where
  und : Stock
  dtype : PutCallFwd
  longshort : LongShort
  strike : ℚ
  expiry : ℚ
  num_mon : ℕ
  contract : ContractType
deriving DecidableEq, Repr

/-- Python `EuropeanDigitalContract.__init__`. -/
def mkEuropeanDigitalContract (und : Stock) (dtype : PutCallFwd)
    (longshort : LongShort) (strk exp : ℚ) : Except PyError EuropeanDigitalContract :=
  if dtype = PutCallFwd.CALL ∨ dtype = PutCallFwd.PUT then
    Except.ok ⟨und, dtype, longshort, strk, exp, 1, ContractType.EUROPEANDIGITALOPTION⟩
  else
    Except.error (raise_incorrect_derivative_type "EuropeanDigitalContract")

/-- Python `EuropeanDigitalContract.ls`. -/
def EuropeanDigitalContract.ls (c : EuropeanDigitalContract) : ℚ := lsValue c.longshort

/-- Python `EuropeanDigitalContract.payoff`: call `ls * float(spot - K > 0)`, put
`ls * float(K - spot > 0)`; the indicator is strict. -/
def EuropeanDigitalContract.payoff (c : EuropeanDigitalContract) (spot : ℚ) :
    Option ℚ :=
  if c.dtype = PutCallFwd.CALL then some (c.ls * (if spot - c.strike > 0 then 1 else 0))
  else if c.dtype = PutCallFwd.PUT then some (c.ls * (if c.strike - spot > 0 then 1 else 0))
  else none

/-- Python `EuropeanDigitalContract.get_timeline`. -/
def EuropeanDigitalContract.get_timeline (c : EuropeanDigitalContract) : List ℚ :=
  vanillaTimeline c.expiry

/-- Python `EuropeanDigitalContract.convert_to_generic`, applied as in `main()`. -/
def EuropeanDigitalContract.convert_to_generic (c : EuropeanDigitalContract) :
    Except PyError GenericContract :=
  mkGenericContract c.contract c.und c.dtype c.longshort c.strike c.expiry ⊤ none none

/-- Python `AsianContract`: payoff from the arithmetic mean of the observed
prices.  Its `__init__` does not pass `num_mon` on, so the base-class
default 1 is always stored. -/
structure AsianContract where
  und : Stock
  dtype : PutCallFwd
  longshort : LongShort
  strike : ℚ
  expiry : ℚ
  num_mon : ℕ
  contract : ContractType
deriving DecidableEq, Repr

/-- Python `AsianContract.__init__`. -/
def mkAsianContract (und : Stock) (dtype : PutCallFwd) (longshort : LongShort)
    (strk exp : ℚ) : Except PyError AsianContract :=
  if dtype = PutCallFwd.CALL ∨ dtype = PutCallFwd.PUT then
    Except.ok ⟨und, dtype, longshort, strk, exp, 1, ContractType.ASIANOPTION⟩
  else
    Except.error (raise_incorrect_derivative_type "AsianContract")

/-- Python `AsianContract.ls`. -/
def AsianContract.ls (c : AsianContract) : ℚ := lsValue c.longshort

/-- Python `AsianContract.payoff`: call `ls * max(mean(prices) - K, 0)`, put
`ls * max(K - mean(prices), 0)`; `mean` of an empty series raises. -/
def AsianContract.payoff (c : AsianContract) (prices_und : List ℚ) : Option ℚ :=
  if c.dtype = PutCallFwd.CALL then
    if prices_und = [] then none else some (c.ls * max (mean prices_und - c.strike) 0)
  else if c.dtype = PutCallFwd.PUT then
    if prices_und = [] then none else some (c.ls * max (c.strike - mean prices_und) 0)
  else none

/-- Python `AsianContract.get_timeline` (inherited from `PathDependentContract`). -/
def AsianContract.get_timeline (c : AsianContract) : List ℚ :=
  pathDependentTimeline c.num_mon c.expiry

/-- Python `AsianContract.convert_to_generic`, applied as in `main()`. -/
def AsianContract.convert_to_generic (c : AsianContract) :
    Except PyError GenericContract :=
  mkGenericContract c.contract c.und c.dtype c.longshort c.strike c.expiry ⊤ none none

/-- Python `EuropeanBarrierContract`: adds barrier level, barrier direction and
barrier activation.  Its `__init__` does not pass `num_mon` on either, so the
base-class default 1 is stored. -/
structure EuropeanBarrierContract where
  und : Stock
  dtype : PutCallFwd
  longshort : LongShort
  strike : ℚ
  expiry : ℚ
  num_mon : ℕ
  contract : ContractType
  barrier : ℚ
  updown : UpDown
  inout : InOut
deriving DecidableEq, Repr

/-- Python `EuropeanBarrierContract.__init__`: validates, in order, the derivative
type, the barrier direction and the barrier activation.  The direction and
activation arguments are `Option`-typed because a Python caller can pass a
value outside the enumerated set (such as `None`); `some` models an argument
inside the permitted set. -/
def mkEuropeanBarrierContract (und : Stock) (dtype : PutCallFwd)
    (longshort : LongShort) (strk exp barrier : ℚ) (updown : Option UpDown)
    (inout : Option InOut) : Except PyError EuropeanBarrierContract :=
  if dtype = PutCallFwd.CALL ∨ dtype = PutCallFwd.PUT then
    match updown with
    | some ud =>
      match inout with
      | some io =>
        Except.ok ⟨und, dtype, longshort, strk, exp, 1,
          ContractType.EUROPEANBARRIEROPTION, barrier, ud, io⟩
      | none => Except.error (raise_incorrect_barrier_inout_type "EuropeanBarrierContract")
    | none => Except.error (raise_incorrect_barrier_updown_type "EuropeanBarrierContract")
  else
    Except.error (raise_incorrect_derivative_type "EuropeanBarrierContract")

/-- Python `EuropeanBarrierContract.ls`. -/
def EuropeanBarrierContract.ls (c : EuropeanBarrierContract) : ℚ := lsValue c.longshort

/-- Python `EuropeanBarrierContract.is_breached`: for `'UP'` any price with
barrier ≤ price, otherwise any price with price ≤ barrier. -/
def EuropeanBarrierContract.is_breached (c : EuropeanBarrierContract)
    (prices_und : List ℚ) : Bool :=
  if c.updown = UpDown.UP then
    prices_und.any (fun price => decide (c.barrier ≤ price))
  else
    prices_und.any (fun price => decide (price ≤ c.barrier))

/-- Python `EuropeanBarrierContract.payoff`: the multiplier
`(inout=='IN')*breached + (inout=='OUT')*(1-breached)` scales the terminal
call/put payoff at the last element of the series; `[-1]` on an empty series
raises. -/
def EuropeanBarrierContract.payoff (c : EuropeanBarrierContract)
    (prices_und : List ℚ) : Option ℚ :=
  let mult : ℚ :=
    (if c.inout = InOut.IN then 1 else 0) *
      (if c.is_breached prices_und then 1 else 0) +
    (if c.inout = InOut.OUT then 1 else 0) *
      (1 - (if c.is_breached prices_und then 1 else 0))
  if c.dtype = PutCallFwd.CALL then
    match prices_und.getLast? with
    | some l => some (mult * c.ls * max (l - c.strike) 0)
    | none => none
  else if c.dtype = PutCallFwd.PUT then
    match prices_und.getLast? with
    | some l => some (mult * c.ls * max (c.strike - l) 0)
    | none => none
  else none

/-- Python `EuropeanBarrierContract.get_timeline`. -/
def EuropeanBarrierContract.get_timeline (c : EuropeanBarrierContract) : List ℚ :=
  pathDependentTimeline c.num_mon c.expiry

/-- Python `EuropeanBarrierContract.convert_to_generic`, applied as in `main()`: the
barrier level, direction and activation are passed through as well. -/
def EuropeanBarrierContract.convert_to_generic (c : EuropeanBarrierContract) :
    Except PyError GenericContract :=
  mkGenericContract c.contract c.und c.dtype c.longshort c.strike c.expiry
    (c.barrier : WithTop ℚ) (some c.updown) (some c.inout)

/-- Python `VolGrid` of `market_data.py` (external collaborator, not part of the
source tree): a volatility surface queried at a (strike, expiry) coordinate.
Only the lookup at a single coordinate is needed. -/
structure VolGrid where
  get_vol : ℚ × ℚ → ℚ

/-- Python `MarketModel` state: underlying, risk-free rate, spot and volatility
grid, initialized from the market-data provider at construction. -/
structure MarketModelData where
  underlying : Stock
  risk_free_rate : ℚ
  spot : ℚ
  volgrid : VolGrid

/-- Python `BSVolModel`: same state as `MarketModel`. -/
structure BSVolModel where
  underlying : Stock
  risk_free_rate : ℚ
  spot : ℚ
  volgrid : VolGrid

/-- Python `BSVolModel.get_vol`: `atm_strike = 1.0 * self.spot`, the `expiry`
argument is overwritten with `1.0`, and the grid is queried at
`(atm_strike, 1.0)`; the caller's `strike` and `expiry` are never used. -/
def BSVolModel.get_vol (m : BSVolModel) (strike expiry : ℚ) : ℚ :=
  m.volgrid.get_vol (1 * m.spot, 1)

/-- Python `FlatVolModel`: same state as `MarketModel`. -/
structure FlatVolModel where
  underlying : Stock
  risk_free_rate : ℚ
  spot : ℚ
  volgrid : VolGrid

/-- Python `FlatVolModel.get_vol`: queries the grid at the caller's exact
`(strike, expiry)` coordinate. -/
def FlatVolModel.get_vol (m : FlatVolModel) (strike expiry : ℚ) : ℚ :=
  m.volgrid.get_vol (strike, expiry)

/-- Helper: the path-dependent timeline with the base-class default
`num_mon = 1` is the one-point list holding the expiry. -/
lemma pathDependentTimeline_one (e : ℚ) : pathDependentTimeline 1 e = [e] := by
  unfold pathDependentTimeline
  norm_num [List.range_succ]

/-- C9: `BSVolModel.get_vol` returns the same volatility for any two
requested (strike, expiry) pairs; the result depends only on the model's
stored spot and the fixed reference expiry 1.0. -/
theorem bsVolModel_get_vol_noninterference :
    (∀ (m : BSVolModel) (strike1 expiry1 strike2 expiry2 : ℚ),
      m.get_vol strike1 expiry1 = m.get_vol strike2 expiry2) ∧
    (∀ (m : BSVolModel) (strike expiry : ℚ),
      m.get_vol strike expiry = m.volgrid.get_vol (1 * m.spot, 1)) :=
  ⟨fun _ _ _ _ _ => rfl, fun _ _ _ => rfl⟩

/-- C8: reference fixture values: a short forward with strike 1 and expiry 2
pays 0.5 at spot 0.5; a long European call with strike 1 and expiry 2 pays
1.5 at spot 2.5; a long Asian call with strike 0.8 (`num_mon` field 9, which
the payoff never reads) pays 0.2 on the series [-1,-0.5,0,0.5,1,1.5,2,2.5,3],
the positive part of the series mean 1 minus the strike. -/
theorem reference_fixture_values :
    (mkForwardContract "Apple" LongShort.SHORT 1 2).payoff (1/2) = 1/2 ∧
    (mkEuropeanContract "OTP" PutCallFwd.CALL LongShort.LONG 1 2).map
      (fun c => c.payoff (5/2)) = Except.ok (some (3/2)) ∧
    (⟨"Microsoft", PutCallFwd.CALL, LongShort.LONG, 4/5, 2, 9,
      ContractType.ASIANOPTION⟩ : AsianContract).payoff
      [-1, -1/2, 0, 1/2, 1, 3/2, 2, 5/2, 3] = some (1/5) := by
  refine ⟨?_, ?_, ?_⟩
  · simp [mkForwardContract, ForwardContract.payoff, ForwardContract.ls, lsValue]
    norm_num
  · simp [mkEuropeanContract, Except.map, EuropeanContract.payoff,
      EuropeanContract.ls, lsValue]
    norm_num
  · simp [AsianContract.payoff, AsianContract.ls, lsValue, mean]
    norm_num

/-- C10: a `GenericContract` can be constructed with derivative type FWD and
any of the option kind tags (FWD is in the permitted direction set), but for
the tags EUROPEANOPTION, AMERICANOPTION, EUROPEANDIGITALOPTION and
ASIANOPTION the payoff dispatch only handles CALL and PUT, so payoff falls
through every branch and produces no value: payoff is not total over
constructible generic contracts. -/
theorem genericContract_payoff_not_total :
    ∀ (und : Stock) (lsh : LongShort) (k e x : ℚ) (xs : List ℚ),
      (mkGenericContract ContractType.EUROPEANOPTION und PutCallFwd.FWD lsh k e
        ⊤ none none).map (fun g => g.payoff (.scalar x)) = Except.ok none ∧
      (mkGenericContract ContractType.AMERICANOPTION und PutCallFwd.FWD lsh k e
        ⊤ none none).map (fun g => g.payoff (.scalar x)) = Except.ok none ∧
      (mkGenericContract ContractType.EUROPEANDIGITALOPTION und PutCallFwd.FWD lsh k e
        ⊤ none none).map (fun g => g.payoff (.scalar x)) = Except.ok none ∧
      (mkGenericContract ContractType.ASIANOPTION und PutCallFwd.FWD lsh k e
        ⊤ none none).map (fun g => g.payoff (.series xs)) = Except.ok none := by
  intro und lsh k e x xs
  refine ⟨?_, ?_, ?_, ?_⟩ <;>
    simp [mkGenericContract, Except.map, GenericContract.payoff]

/-- C7: the payoff of a constructed `EuropeanDigitalContract` evaluated at a
terminal price exactly equal to the strike is exactly 0, for both call and
put, because the indicator uses strict inequality. -/
theorem europeanDigital_payoff_at_strike_zero :
    ∀ (und : Stock) (d : PutCallFwd) (lsh : LongShort) (k e : ℚ)
      (c : EuropeanDigitalContract),
      mkEuropeanDigitalContract und d lsh k e = Except.ok c →
      c.payoff c.strike = some 0 := by
  intro und d lsh k e c h
  cases d with
  | CALL =>
    simp [mkEuropeanDigitalContract] at h
    subst h
    simp [EuropeanDigitalContract.payoff]
  | PUT =>
    simp [mkEuropeanDigitalContract] at h
    subst h
    simp [EuropeanDigitalContract.payoff]
  | FWD => simp [mkEuropeanDigitalContract] at h

/-- Witness for C7 at a concrete digital call with strike 1. -/
theorem europeanDigital_payoff_at_strike_zero_witness :
    (⟨"Mol", PutCallFwd.CALL, LongShort.LONG, 1, 2, 1,
      ContractType.EUROPEANDIGITALOPTION⟩ : EuropeanDigitalContract).payoff 1 = some 0 :=
  europeanDigital_payoff_at_strike_zero "Mol" PutCallFwd.CALL LongShort.LONG 1 2 _ rfl

/-- C2: for a constructed `EuropeanBarrierContract`, `is_breached` is true
with direction UP iff some price in the series is ≥ the barrier, and with
direction DOWN iff some price is ≤ the barrier; in particular with barrier
2.7 and direction UP, [1,2,2.5,2] is not breached and [1,2,3.5,2] is. -/
theorem barrier_is_breached_rule :
    (∀ (und : Stock) (d : PutCallFwd) (lsh : LongShort) (k e b : ℚ)
      (ud : UpDown) (io : InOut) (c : EuropeanBarrierContract),
      mkEuropeanBarrierContract und d lsh k e b (some ud) (some io) = Except.ok c →
      ∀ xs : List ℚ,
        (ud = UpDown.UP → (c.is_breached xs = true ↔ ∃ p ∈ xs, b ≤ p)) ∧
        (ud = UpDown.DOWN → (c.is_breached xs = true ↔ ∃ p ∈ xs, p ≤ b))) ∧
    (⟨"Deutshe Bank", PutCallFwd.CALL, LongShort.LONG, 3/2, 2, 1,
      ContractType.EUROPEANBARRIEROPTION, 27/10, UpDown.UP, InOut.IN⟩ :
      EuropeanBarrierContract).is_breached [1, 2, 5/2, 2] = false ∧
    (⟨"Deutshe Bank", PutCallFwd.CALL, LongShort.LONG, 3/2, 2, 1,
      ContractType.EUROPEANBARRIEROPTION, 27/10, UpDown.UP, InOut.IN⟩ :
      EuropeanBarrierContract).is_breached [1, 2, 7/2, 2] = true := by
  refine ⟨?_, ?_, ?_⟩
  · intro und d lsh k e b ud io c h xs
    cases d with
    | CALL =>
      simp [mkEuropeanBarrierContract] at h
      subst h
      constructor
      · intro hud
        subst hud
        simp [EuropeanBarrierContract.is_breached, List.any_eq_true]
      · intro hud
        subst hud
        simp [EuropeanBarrierContract.is_breached, List.any_eq_true]
    | PUT =>
      simp [mkEuropeanBarrierContract] at h
      subst h
      constructor
      · intro hud
        subst hud
        simp [EuropeanBarrierContract.is_breached, List.any_eq_true]
      · intro hud
        subst hud
        simp [EuropeanBarrierContract.is_breached, List.any_eq_true]
    | FWD => simp [mkEuropeanBarrierContract] at h
  · norm_num [EuropeanBarrierContract.is_breached, List.any]
  · norm_num [EuropeanBarrierContract.is_breached, List.any]

/-- Witness for C2: the UP rule applied to a concrete contract and series. -/
theorem barrier_is_breached_rule_witness :
    (⟨"Deutshe Bank", PutCallFwd.CALL, LongShort.LONG, 3/2, 2, 1,
      ContractType.EUROPEANBARRIEROPTION, 27/10, UpDown.UP, InOut.IN⟩ :
      EuropeanBarrierContract).is_breached [1, 2, 7/2, 2] = true :=
  ((barrier_is_breached_rule.1 "Deutshe Bank" PutCallFwd.CALL LongShort.LONG
    (3/2) 2 (27/10) UpDown.UP InOut.IN _ rfl [1, 2, 7/2, 2]).1 rfl).mpr
    ⟨7/2, by norm_num, by norm_num⟩

/-- C5: for every concrete vanilla and path-dependent variant, the payoff of
the contract with position SHORT is the negation of the payoff with position
LONG, all other construction parameters and the price input equal. -/
theorem payoff_sign_symmetry :
    (∀ (und : Stock) (k e x : ℚ),
      (⟨und, PutCallFwd.FWD, LongShort.SHORT, k, e, 1, ContractType.FORWARD⟩ :
        ForwardContract).payoff x =
      -(⟨und, PutCallFwd.FWD, LongShort.LONG, k, e, 1, ContractType.FORWARD⟩ :
        ForwardContract).payoff x) ∧
    (∀ (und : Stock) (d : PutCallFwd) (k e x : ℚ),
      (⟨und, d, LongShort.SHORT, k, e, 1, ContractType.EUROPEANOPTION⟩ :
        EuropeanContract).payoff x =
      Option.map (fun v => -v)
        ((⟨und, d, LongShort.LONG, k, e, 1, ContractType.EUROPEANOPTION⟩ :
          EuropeanContract).payoff x)) ∧
    (∀ (und : Stock) (d : PutCallFwd) (k e x : ℚ),
      (⟨und, d, LongShort.SHORT, k, e, 1, ContractType.AMERICANOPTION⟩ :
        AmericanContract).payoff x =
      Option.map (fun v => -v)
        ((⟨und, d, LongShort.LONG, k, e, 1, ContractType.AMERICANOPTION⟩ :
          AmericanContract).payoff x)) ∧
    (∀ (und : Stock) (d : PutCallFwd) (k e x : ℚ),
      (⟨und, d, LongShort.SHORT, k, e, 1, ContractType.EUROPEANDIGITALOPTION⟩ :
        EuropeanDigitalContract).payoff x =
      Option.map (fun v => -v)
        ((⟨und, d, LongShort.LONG, k, e, 1, ContractType.EUROPEANDIGITALOPTION⟩ :
          EuropeanDigitalContract).payoff x)) ∧
    (∀ (und : Stock) (d : PutCallFwd) (k e : ℚ) (xs : List ℚ),
      (⟨und, d, LongShort.SHORT, k, e, 1, ContractType.ASIANOPTION⟩ :
        AsianContract).payoff xs =
      Option.map (fun v => -v)
        ((⟨und, d, LongShort.LONG, k, e, 1, ContractType.ASIANOPTION⟩ :
          AsianContract).payoff xs)) ∧
    (∀ (und : Stock) (d : PutCallFwd) (k e b : ℚ) (ud : UpDown) (io : InOut)
      (xs : List ℚ),
      (⟨und, d, LongShort.SHORT, k, e, 1, ContractType.EUROPEANBARRIEROPTION,
        b, ud, io⟩ : EuropeanBarrierContract).payoff xs =
      Option.map (fun v => -v)
        ((⟨und, d, LongShort.LONG, k, e, 1, ContractType.EUROPEANBARRIEROPTION,
          b, ud, io⟩ : EuropeanBarrierContract).payoff xs)) := by
  refine ⟨?_, ?_, ?_, ?_, ?_, ?_⟩
  · intro und k e x
    simp [ForwardContract.payoff, ForwardContract.ls, lsValue]
  · intro und d k e x
    cases d <;>
      simp [EuropeanContract.payoff, EuropeanContract.ls, lsValue]
  · intro und d k e x
    cases d <;>
      simp [AmericanContract.payoff, AmericanContract.ls, lsValue]
  · intro und d k e x
    cases d with
    | CALL =>
      simp [EuropeanDigitalContract.payoff, EuropeanDigitalContract.ls, lsValue]
      split <;> norm_num
    | PUT =>
      simp [EuropeanDigitalContract.payoff, EuropeanDigitalContract.ls, lsValue]
      split <;> norm_num
    | FWD => simp [EuropeanDigitalContract.payoff]
  · intro und d k e xs
    cases d with
    | CALL =>
      by_cases hxs : xs = [] <;>
        simp [AsianContract.payoff, AsianContract.ls, lsValue, hxs]
    | PUT =>
      by_cases hxs : xs = [] <;>
        simp [AsianContract.payoff, AsianContract.ls, lsValue, hxs]
    | FWD => simp [AsianContract.payoff]
  · intro und d k e b ud io xs
    cases d with
    | CALL =>
      cases h : xs.getLast? <;>
        simp [EuropeanBarrierContract.payoff, EuropeanBarrierContract.ls,
          EuropeanBarrierContract.is_breached, lsValue, h] <;> ring
    | PUT =>
      cases h : xs.getLast? <;>
        simp [EuropeanBarrierContract.payoff, EuropeanBarrierContract.ls,
          EuropeanBarrierContract.is_breached, lsValue, h] <;> ring
    | FWD => simp [EuropeanBarrierContract.payoff]

/-- C6: every vanilla contract's timeline equals the one-element list holding
the expiry, and every path-dependent contract's timeline has length
`num_mon`, is strictly increasing and has the expiry as its last element
(every constructed path-dependent contract, the generic form included, keeps
the base-class default `num_mon = 1` because no constructor passes `num_mon`
on). -/
theorem timeline_shape :
    (∀ (und : Stock) (lsh : LongShort) (k e : ℚ),
      (mkForwardContract und lsh k e).get_timeline =
        [(mkForwardContract und lsh k e).expiry]) ∧
    (∀ (und : Stock) (d : PutCallFwd) (lsh : LongShort) (k e : ℚ)
      (c : EuropeanContract), mkEuropeanContract und d lsh k e = Except.ok c →
      c.get_timeline = [c.expiry]) ∧
    (∀ (und : Stock) (d : PutCallFwd) (lsh : LongShort) (k e : ℚ)
      (c : AmericanContract), mkAmericanContract und d lsh k e = Except.ok c →
      c.get_timeline = [c.expiry]) ∧
    (∀ (und : Stock) (d : PutCallFwd) (lsh : LongShort) (k e : ℚ)
      (c : EuropeanDigitalContract),
      mkEuropeanDigitalContract und d lsh k e = Except.ok c →
      c.get_timeline = [c.expiry]) ∧
    (∀ (und : Stock) (d : PutCallFwd) (lsh : LongShort) (k e : ℚ)
      (c : AsianContract), mkAsianContract und d lsh k e = Except.ok c →
      c.get_timeline.length = c.num_mon ∧
        List.Pairwise (fun a b => a < b) c.get_timeline ∧
        c.get_timeline.getLast? = some c.expiry) ∧
    (∀ (und : Stock) (d : PutCallFwd) (lsh : LongShort) (k e b : ℚ)
      (ud : Option UpDown) (io : Option InOut) (c : EuropeanBarrierContract),
      mkEuropeanBarrierContract und d lsh k e b ud io = Except.ok c →
      c.get_timeline.length = c.num_mon ∧
        List.Pairwise (fun a b => a < b) c.get_timeline ∧
        c.get_timeline.getLast? = some c.expiry) ∧
    (∀ (ct : ContractType) (und : Stock) (d : PutCallFwd) (lsh : LongShort)
      (k e : ℚ) (bar : WithTop ℚ) (ud : Option UpDown) (io : Option InOut)
      (g : GenericContract),
      mkGenericContract ct und d lsh k e bar ud io = Except.ok g →
      g.get_timeline.length = g.num_mon ∧
        List.Pairwise (fun a b => a < b) g.get_timeline ∧
        g.get_timeline.getLast? = some g.expiry) := by
  refine ⟨?_, ?_, ?_, ?_, ?_, ?_, ?_⟩
  · intro und lsh k e
    simp [mkForwardContract, ForwardContract.get_timeline, vanillaTimeline]
  · intro und d lsh k e c h
    cases d <;> simp [mkEuropeanContract] at h <;> subst h <;>
      simp [EuropeanContract.get_timeline, vanillaTimeline]
  · intro und d lsh k e c h
    cases d <;> simp [mkAmericanContract] at h <;> subst h <;>
      simp [AmericanContract.get_timeline, vanillaTimeline]
  · intro und d lsh k e c h
    cases d <;> simp [mkEuropeanDigitalContract] at h <;> subst h <;>
      simp [EuropeanDigitalContract.get_timeline, vanillaTimeline]
  · intro und d lsh k e c h
    cases d <;> simp [mkAsianContract] at h <;> subst h <;>
      simp [AsianContract.get_timeline, pathDependentTimeline_one]
  · intro und d lsh k e b ud io c h
    cases d <;> cases ud <;> cases io <;> simp [mkEuropeanBarrierContract] at h <;>
      subst h <;>
      simp [EuropeanBarrierContract.get_timeline, pathDependentTimeline_one]
  · intro ct und d lsh k e bar ud io g h
    cases d <;> simp [mkGenericContract] at h <;> subst h <;>
      simp [GenericContract.get_timeline, pathDependentTimeline_one]

/-- Witness for C6: the timeline shape at concrete contracts of each
validated class. -/
theorem timeline_shape_witness :
    (⟨"OTP", PutCallFwd.CALL, LongShort.LONG, 1, 2, 1,
      ContractType.EUROPEANOPTION⟩ : EuropeanContract).get_timeline = [2] ∧
    (⟨"Tesla", PutCallFwd.CALL, LongShort.LONG, 1, 2, 1,
      ContractType.AMERICANOPTION⟩ : AmericanContract).get_timeline = [2] ∧
    (⟨"Mol", PutCallFwd.CALL, LongShort.LONG, 1, 2, 1,
      ContractType.EUROPEANDIGITALOPTION⟩ : EuropeanDigitalContract).get_timeline = [2] ∧
    ((⟨"Microsoft", PutCallFwd.CALL, LongShort.LONG, 4/5, 2, 1,
      ContractType.ASIANOPTION⟩ : AsianContract).get_timeline.length = 1 ∧
      List.Pairwise (fun a b => a < b)
        (⟨"Microsoft", PutCallFwd.CALL, LongShort.LONG, 4/5, 2, 1,
          ContractType.ASIANOPTION⟩ : AsianContract).get_timeline ∧
      (⟨"Microsoft", PutCallFwd.CALL, LongShort.LONG, 4/5, 2, 1,
        ContractType.ASIANOPTION⟩ : AsianContract).get_timeline.getLast? = some 2) ∧
    ((⟨"Deutshe Bank", PutCallFwd.CALL, LongShort.LONG, 3/2, 2, 1,
      ContractType.EUROPEANBARRIEROPTION, 27/10, UpDown.UP, InOut.IN⟩ :
      EuropeanBarrierContract).get_timeline.length = 1 ∧
      List.Pairwise (fun a b => a < b)
        (⟨"Deutshe Bank", PutCallFwd.CALL, LongShort.LONG, 3/2, 2, 1,
          ContractType.EUROPEANBARRIEROPTION, 27/10, UpDown.UP, InOut.IN⟩ :
          EuropeanBarrierContract).get_timeline ∧
      (⟨"Deutshe Bank", PutCallFwd.CALL, LongShort.LONG, 3/2, 2, 1,
        ContractType.EUROPEANBARRIEROPTION, 27/10, UpDown.UP, InOut.IN⟩ :
        EuropeanBarrierContract).get_timeline.getLast? = some 2) ∧
    ((⟨ContractType.FORWARD, "Apple", PutCallFwd.FWD, LongShort.SHORT, 1, 2, 1,
      ⊤, none, none⟩ : GenericContract).get_timeline.length = 1 ∧
      List.Pairwise (fun a b => a < b)
        (⟨ContractType.FORWARD, "Apple", PutCallFwd.FWD, LongShort.SHORT, 1, 2, 1,
          ⊤, none, none⟩ : GenericContract).get_timeline ∧
      (⟨ContractType.FORWARD, "Apple", PutCallFwd.FWD, LongShort.SHORT, 1, 2, 1,
        ⊤, none, none⟩ : GenericContract).get_timeline.getLast? = some 2) :=
  ⟨timeline_shape.2.1 "OTP" PutCallFwd.CALL LongShort.LONG 1 2 _ rfl,
   timeline_shape.2.2.1 "Tesla" PutCallFwd.CALL LongShort.LONG 1 2 _ rfl,
   timeline_shape.2.2.2.1 "Mol" PutCallFwd.CALL LongShort.LONG 1 2 _ rfl,
   timeline_shape.2.2.2.2.1 "Microsoft" PutCallFwd.CALL LongShort.LONG (4/5) 2 _ rfl,
   timeline_shape.2.2.2.2.2.1 "Deutshe Bank" PutCallFwd.CALL LongShort.LONG
     (3/2) 2 (27/10) (some UpDown.UP) (some InOut.IN) _ rfl,
   timeline_shape.2.2.2.2.2.2 ContractType.FORWARD "Apple" PutCallFwd.FWD
     LongShort.SHORT 1 2 ⊤ none none _ rfl⟩

/-- Helper: comparing rationals coerced into `WithTop ℚ` agrees with the
plain rational comparison, at the `decide` level used by `is_breached`. -/
lemma decide_coe_le_coe (b p : ℚ) :
    decide ((b : WithTop ℚ) ≤ (p : WithTop ℚ)) = decide (b ≤ p) :=
  decide_eq_decide.mpr WithTop.coe_le_coe

/-- C1: round-trip fidelity: converting any concrete contract to the generic
form (passing the contract's own kind tag, underlying, derivative type,
position, strike and expiry, and for the barrier variant also barrier level,
direction and activation) succeeds, and `payoff` on the generic form at the
same price input returns exactly the payoff of the concrete contract. -/
theorem convert_to_generic_payoff_roundtrip :
    (∀ (und : Stock) (lsh : LongShort) (k e x : ℚ),
      ((mkForwardContract und lsh k e).convert_to_generic).map
        (fun g => g.payoff (.scalar x)) =
      Except.ok (some ((mkForwardContract und lsh k e).payoff x))) ∧
    (∀ (und : Stock) (d : PutCallFwd) (lsh : LongShort) (k e : ℚ)
      (c : EuropeanContract), mkEuropeanContract und d lsh k e = Except.ok c →
      ∀ x : ℚ, (c.convert_to_generic).map (fun g => g.payoff (.scalar x)) =
        Except.ok (c.payoff x)) ∧
    (∀ (und : Stock) (d : PutCallFwd) (lsh : LongShort) (k e : ℚ)
      (c : AmericanContract), mkAmericanContract und d lsh k e = Except.ok c →
      ∀ x : ℚ, (c.convert_to_generic).map (fun g => g.payoff (.scalar x)) =
        Except.ok (c.payoff x)) ∧
    (∀ (und : Stock) (d : PutCallFwd) (lsh : LongShort) (k e : ℚ)
      (c : EuropeanDigitalContract),
      mkEuropeanDigitalContract und d lsh k e = Except.ok c →
      ∀ x : ℚ, (c.convert_to_generic).map (fun g => g.payoff (.scalar x)) =
        Except.ok (c.payoff x)) ∧
    (∀ (und : Stock) (d : PutCallFwd) (lsh : LongShort) (k e : ℚ)
      (c : AsianContract), mkAsianContract und d lsh k e = Except.ok c →
      ∀ xs : List ℚ, (c.convert_to_generic).map (fun g => g.payoff (.series xs)) =
        Except.ok (c.payoff xs)) ∧
    (∀ (und : Stock) (d : PutCallFwd) (lsh : LongShort) (k e b : ℚ)
      (ud : UpDown) (io : InOut) (c : EuropeanBarrierContract),
      mkEuropeanBarrierContract und d lsh k e b (some ud) (some io) = Except.ok c →
      ∀ xs : List ℚ, (c.convert_to_generic).map (fun g => g.payoff (.series xs)) =
        Except.ok (c.payoff xs)) := by
  refine ⟨?_, ?_, ?_, ?_, ?_, ?_⟩
  · intro und lsh k e x
    simp [mkForwardContract, ForwardContract.convert_to_generic, mkGenericContract,
      Except.map, GenericContract.payoff, GenericContract.ls,
      ForwardContract.payoff, ForwardContract.ls]
  · intro und d lsh k e c h
    cases d <;> simp [mkEuropeanContract] at h <;> subst h <;> intro x <;>
      simp [EuropeanContract.convert_to_generic, mkGenericContract, Except.map,
        GenericContract.payoff, GenericContract.ls, EuropeanContract.payoff,
        EuropeanContract.ls]
  · intro und d lsh k e c h
    cases d <;> simp [mkAmericanContract] at h <;> subst h <;> intro x <;>
      simp [AmericanContract.convert_to_generic, mkGenericContract, Except.map,
        GenericContract.payoff, GenericContract.ls, AmericanContract.payoff,
        AmericanContract.ls]
  · intro und d lsh k e c h
    cases d <;> simp [mkEuropeanDigitalContract] at h <;> subst h <;> intro x <;>
      simp [EuropeanDigitalContract.convert_to_generic, mkGenericContract,
        Except.map, GenericContract.payoff, GenericContract.ls,
        EuropeanDigitalContract.payoff, EuropeanDigitalContract.ls]
  · intro und d lsh k e c h
    cases d <;> simp [mkAsianContract] at h <;> subst h <;> intro xs <;>
      simp [AsianContract.convert_to_generic, mkGenericContract, Except.map,
        GenericContract.payoff, GenericContract.ls, AsianContract.payoff,
        AsianContract.ls]
  · intro und d lsh k e b ud io c h
    cases d with
    | CALL =>
      simp [mkEuropeanBarrierContract] at h
      subst h
      intro xs
      cases ud <;>
        simp [EuropeanBarrierContract.convert_to_generic, mkGenericContract,
          Except.map, GenericContract.payoff, GenericContract.ls,
          GenericContract.is_breached, EuropeanBarrierContract.payoff,
          EuropeanBarrierContract.ls, EuropeanBarrierContract.is_breached,
          decide_coe_le_coe]
    | PUT =>
      simp [mkEuropeanBarrierContract] at h
      subst h
      intro xs
      cases ud <;>
        simp [EuropeanBarrierContract.convert_to_generic, mkGenericContract,
          Except.map, GenericContract.payoff, GenericContract.ls,
          GenericContract.is_breached, EuropeanBarrierContract.payoff,
          EuropeanBarrierContract.ls, EuropeanBarrierContract.is_breached,
          decide_coe_le_coe]
    | FWD => simp [mkEuropeanBarrierContract] at h

/-- Witness for C1: round-trip fidelity at a concrete contract of each
validated class, at concrete price inputs. -/
theorem convert_to_generic_payoff_roundtrip_witness :
    ((⟨"OTP", PutCallFwd.CALL, LongShort.LONG, 1, 2, 1,
      ContractType.EUROPEANOPTION⟩ : EuropeanContract).convert_to_generic).map
      (fun g => g.payoff (.scalar (5/2))) =
      Except.ok ((⟨"OTP", PutCallFwd.CALL, LongShort.LONG, 1, 2, 1,
        ContractType.EUROPEANOPTION⟩ : EuropeanContract).payoff (5/2)) ∧
    ((⟨"Tesla", PutCallFwd.CALL, LongShort.LONG, 1, 2, 1,
      ContractType.AMERICANOPTION⟩ : AmericanContract).convert_to_generic).map
      (fun g => g.payoff (.scalar (5/2))) =
      Except.ok ((⟨"Tesla", PutCallFwd.CALL, LongShort.LONG, 1, 2, 1,
        ContractType.AMERICANOPTION⟩ : AmericanContract).payoff (5/2)) ∧
    ((⟨"Mol", PutCallFwd.PUT, LongShort.SHORT, 1, 2, 1,
      ContractType.EUROPEANDIGITALOPTION⟩ :
      EuropeanDigitalContract).convert_to_generic).map
      (fun g => g.payoff (.scalar (1/2))) =
      Except.ok ((⟨"Mol", PutCallFwd.PUT, LongShort.SHORT, 1, 2, 1,
        ContractType.EUROPEANDIGITALOPTION⟩ :
        EuropeanDigitalContract).payoff (1/2)) ∧
    ((⟨"Microsoft", PutCallFwd.CALL, LongShort.LONG, 4/5, 2, 1,
      ContractType.ASIANOPTION⟩ : AsianContract).convert_to_generic).map
      (fun g => g.payoff (.series [-1, -1/2, 0, 1/2, 1, 3/2, 2, 5/2, 3])) =
      Except.ok ((⟨"Microsoft", PutCallFwd.CALL, LongShort.LONG, 4/5, 2, 1,
        ContractType.ASIANOPTION⟩ : AsianContract).payoff
        [-1, -1/2, 0, 1/2, 1, 3/2, 2, 5/2, 3]) ∧
    ((⟨"Deutshe Bank", PutCallFwd.CALL, LongShort.LONG, 3/2, 2, 1,
      ContractType.EUROPEANBARRIEROPTION, 27/10, UpDown.UP, InOut.IN⟩ :
      EuropeanBarrierContract).convert_to_generic).map
      (fun g => g.payoff (.series [-1, -1/2, 0, 1/2, 1, 3/2, 2, 5/2, 3])) =
      Except.ok ((⟨"Deutshe Bank", PutCallFwd.CALL, LongShort.LONG, 3/2, 2, 1,
        ContractType.EUROPEANBARRIEROPTION, 27/10, UpDown.UP, InOut.IN⟩ :
        EuropeanBarrierContract).payoff [-1, -1/2, 0, 1/2, 1, 3/2, 2, 5/2, 3]) :=
  ⟨convert_to_generic_payoff_roundtrip.2.1 "OTP" PutCallFwd.CALL LongShort.LONG
     1 2 _ rfl (5/2),
   convert_to_generic_payoff_roundtrip.2.2.1 "Tesla" PutCallFwd.CALL
     LongShort.LONG 1 2 _ rfl (5/2),
   convert_to_generic_payoff_roundtrip.2.2.2.1 "Mol" PutCallFwd.PUT
     LongShort.SHORT 1 2 _ rfl (1/2),
   convert_to_generic_payoff_roundtrip.2.2.2.2.1 "Microsoft" PutCallFwd.CALL
     LongShort.LONG (4/5) 2 _ rfl [-1, -1/2, 0, 1/2, 1, 3/2, 2, 5/2, 3],
   convert_to_generic_payoff_roundtrip.2.2.2.2.2 "Deutshe Bank" PutCallFwd.CALL
     LongShort.LONG (3/2) 2 (27/10) UpDown.UP InOut.IN _ rfl
     [-1, -1/2, 0, 1/2, 1, 3/2, 2, 5/2, 3]⟩

/-- Helper: the barrier payoff of a contract whose derivative type is CALL or
PUT, on a non-empty series, in indicator form. -/
lemma barrier_payoff_formula_aux (c : EuropeanBarrierContract) (xs : List ℚ)
    (h : xs ≠ []) (hd : c.dtype = PutCallFwd.CALL ∨ c.dtype = PutCallFwd.PUT) :
    c.payoff xs = some
      ((if (c.inout = InOut.IN ∧ c.is_breached xs = true) ∨
          (c.inout = InOut.OUT ∧ c.is_breached xs = false) then (1:ℚ) else 0) *
        (c.ls * (if c.dtype = PutCallFwd.CALL then max (xs.getLast h - c.strike) 0
          else max (c.strike - xs.getLast h) 0))) := by
  rcases hd with hd | hd <;>
    cases hio : c.inout <;>
    cases hb : c.is_breached xs <;>
      simp [EuropeanBarrierContract.payoff, hd, hio, hb,
        List.getLast?_eq_getLast xs h]

/-- C3: the payoff of a constructed `EuropeanBarrierContract` on a non-empty
price series equals the sign times the terminal call/put payoff at the last
element of the series, multiplied by 1 when (activation IN and breached) or
(activation OUT and not breached) and by 0 otherwise. -/
theorem barrier_payoff_formula :
    ∀ (und : Stock) (d : PutCallFwd) (lsh : LongShort) (k e b : ℚ)
      (ud : UpDown) (io : InOut) (c : EuropeanBarrierContract),
      mkEuropeanBarrierContract und d lsh k e b (some ud) (some io) = Except.ok c →
      ∀ (xs : List ℚ) (h : xs ≠ []),
        c.payoff xs = some
          ((if (c.inout = InOut.IN ∧ c.is_breached xs = true) ∨
              (c.inout = InOut.OUT ∧ c.is_breached xs = false) then (1:ℚ) else 0) *
            (c.ls * (if c.dtype = PutCallFwd.CALL then max (xs.getLast h - c.strike) 0
              else max (c.strike - xs.getLast h) 0))) := by
  intro und d lsh k e b ud io c hc xs h
  refine barrier_payoff_formula_aux c xs h ?_
  cases d with
  | CALL =>
    simp [mkEuropeanBarrierContract] at hc
    subst hc
    exact Or.inl rfl
  | PUT =>
    simp [mkEuropeanBarrierContract] at hc
    subst hc
    exact Or.inr rfl
  | FWD => simp [mkEuropeanBarrierContract] at hc

/-- The up-and-in barrier call of the demo `main()` (`trade6`). -/
def trade6 : EuropeanBarrierContract :=
  ⟨"Deutshe Bank", PutCallFwd.CALL, LongShort.LONG, 3/2, 2, 1,
    ContractType.EUROPEANBARRIEROPTION, 27/10, UpDown.UP, InOut.IN⟩

/-- Witness for C3: the indicator form of the barrier payoff at the demo
contract and the demo price series. -/
theorem barrier_payoff_formula_witness :
    trade6.payoff [-1, -1/2, 0, 1/2, 1, 3/2, 2, 5/2, 3] = some
      ((if (trade6.inout = InOut.IN ∧
          trade6.is_breached [-1, -1/2, 0, 1/2, 1, 3/2, 2, 5/2, 3] = true) ∨
          (trade6.inout = InOut.OUT ∧
            trade6.is_breached [-1, -1/2, 0, 1/2, 1, 3/2, 2, 5/2, 3] = false)
        then (1:ℚ) else 0) *
        (trade6.ls * (if trade6.dtype = PutCallFwd.CALL
          then max ([-1, -1/2, 0, 1/2, 1, 3/2, 2, 5/2, 3].getLast (by simp) -
            trade6.strike) 0
          else max (trade6.strike -
            [-1, -1/2, 0, 1/2, 1, 3/2, 2, 5/2, 3].getLast (by simp)) 0))) :=
  barrier_payoff_formula "Deutshe Bank" PutCallFwd.CALL LongShort.LONG (3/2) 2
    (27/10) UpDown.UP InOut.IN trade6 rfl
    [-1, -1/2, 0, 1/2, 1, 3/2, 2, 5/2, 3] (by simp)

/-- Decides whether a constructor outcome is a raised `ValidationError`. -/
def raisesValidationError {α : Type} (r : Except PyError α) : Bool :=
  match r with
  | Except.error (PyError.validationError _) => true
  | _ => false

/-- C4 counterexample: constructing a `EuropeanContract` with derivative type
FWD, and a `EuropeanBarrierContract` with activation outside {IN, OUT}, does
not raise `ValidationError`: both raise `TypeError`. -/
theorem construction_raises_typeError_not_validationError :
    raisesValidationError
      (mkEuropeanContract "OTP" PutCallFwd.FWD LongShort.LONG 1 2) = false ∧
    mkEuropeanContract "OTP" PutCallFwd.FWD LongShort.LONG 1 2 =
      Except.error (raise_incorrect_derivative_type "EuropeanContract") ∧
    raisesValidationError (mkEuropeanBarrierContract "Deutshe Bank" PutCallFwd.CALL
      LongShort.LONG (3/2) 2 (27/10) (some UpDown.UP) none) = false ∧
    mkEuropeanBarrierContract "Deutshe Bank" PutCallFwd.CALL LongShort.LONG (3/2) 2
      (27/10) (some UpDown.UP) none =
      Except.error (raise_incorrect_barrier_inout_type "EuropeanBarrierContract") :=
  ⟨rfl, rfl, rfl, rfl⟩

/-- C4 (amended): constructing a `EuropeanContract` with derivative type FWD
raises `TypeError`, and constructing a `EuropeanBarrierContract` with barrier
activation outside {IN, OUT} raises `TypeError`; these errors arise at
construction, and the payoff of a successfully constructed contract never
raises them (for the barrier contract, on a non-empty price series). -/
theorem construction_validation_amended :
    (∀ (und : Stock) (lsh : LongShort) (k e : ℚ),
      mkEuropeanContract und PutCallFwd.FWD lsh k e =
        Except.error (raise_incorrect_derivative_type "EuropeanContract")) ∧
    (∀ (und : Stock) (d : PutCallFwd) (lsh : LongShort) (k e b : ℚ) (ud : UpDown),
      (d = PutCallFwd.CALL ∨ d = PutCallFwd.PUT) →
      mkEuropeanBarrierContract und d lsh k e b (some ud) none =
        Except.error (raise_incorrect_barrier_inout_type "EuropeanBarrierContract")) ∧
    (∀ (und : Stock) (d : PutCallFwd) (lsh : LongShort) (k e : ℚ)
      (c : EuropeanContract), mkEuropeanContract und d lsh k e = Except.ok c →
      ∀ x : ℚ, c.payoff x ≠ none) ∧
    (∀ (und : Stock) (d : PutCallFwd) (lsh : LongShort) (k e b : ℚ)
      (ud : UpDown) (io : InOut) (c : EuropeanBarrierContract),
      mkEuropeanBarrierContract und d lsh k e b (some ud) (some io) = Except.ok c →
      ∀ xs : List ℚ, xs ≠ [] → c.payoff xs ≠ none) := by
  refine ⟨?_, ?_, ?_, ?_⟩
  · intro und lsh k e
    simp [mkEuropeanContract]
  · intro und d lsh k e b ud hd
    rcases hd with hd | hd <;> subst hd <;> simp [mkEuropeanBarrierContract]
  · intro und d lsh k e c h x
    cases d <;> simp [mkEuropeanContract] at h <;> subst h <;>
      simp [EuropeanContract.payoff]
  · intro und d lsh k e b ud io c h xs hxs
    cases d with
    | CALL =>
      simp [mkEuropeanBarrierContract] at h
      subst h
      simp [EuropeanBarrierContract.payoff, List.getLast?_eq_getLast xs hxs]
    | PUT =>
      simp [mkEuropeanBarrierContract] at h
      subst h
      simp [EuropeanBarrierContract.payoff, List.getLast?_eq_getLast xs hxs]
    | FWD => simp [mkEuropeanBarrierContract] at h

/-- Witness for the amended C4 at concrete contracts. -/
theorem construction_validation_amended_witness :
    mkEuropeanBarrierContract "Deutshe Bank" PutCallFwd.CALL LongShort.LONG (3/2) 2
      (27/10) (some UpDown.UP) none =
      Except.error (raise_incorrect_barrier_inout_type "EuropeanBarrierContract") ∧
    (⟨"OTP", PutCallFwd.CALL, LongShort.LONG, 1, 2, 1,
      ContractType.EUROPEANOPTION⟩ : EuropeanContract).payoff (5/2) ≠ none ∧
    (⟨"Deutshe Bank", PutCallFwd.CALL, LongShort.LONG, 3/2, 2, 1,
      ContractType.EUROPEANBARRIEROPTION, 27/10, UpDown.UP, InOut.IN⟩ :
      EuropeanBarrierContract).payoff [1, 2, 7/2, 2] ≠ none :=
  ⟨construction_validation_amended.2.1 "Deutshe Bank" PutCallFwd.CALL
     LongShort.LONG (3/2) 2 (27/10) UpDown.UP (Or.inl rfl),
   construction_validation_amended.2.2.1 "OTP" PutCallFwd.CALL LongShort.LONG
     1 2 _ rfl (5/2),
   construction_validation_amended.2.2.2 "Deutshe Bank" PutCallFwd.CALL
     LongShort.LONG (3/2) 2 (27/10) UpDown.UP InOut.IN _ rfl [1, 2, 7/2, 2]
     (by simp)⟩
